import Mathlib

/-!
Shallow embedding of `src/pumpcalc.py`, a pump-sizing head-loss calculator
for clean commercial steel schedule-40 pipe.

The Python module computes with floats; we model the numeric content over `ℝ`.
Two layers are given:

* pure real-valued functions, one per Python function, mirroring the formulas
  of the source line by line;
* an exception-aware layer (`...Run` functions over `Except PyExc`) that models
  the Python runtime behavior of the same code: `a / b` raises
  `ZeroDivisionError` when `b == 0`, and `math.log10 x` raises `ValueError`
  ("math domain error") when `x ≤ 0`.  The source contains no explicit
  validation, so these implicit runtime exceptions are the only failure
  behavior of the program.

The fittings dictionary `{'fitting name': {'number': X}}` is modelled as an
association list `List (String × ℕ)` (Python dict keys are unique, but none of
the proofs need that); the `print` of an unknown fitting name is modelled as a
returned list of notices.
-/

namespace PumpCalc

/-- `EPSILON = 0.00015`, absolute roughness (ft) for commercial steel pipe. -/
noncomputable def EPSILON : ℝ := 0.00015

/-- `GRAV_CONST = 32.174`, gravitational constant in ft/sec^2. -/
noncomputable def GRAV_CONST : ℝ := 32.174

/-- `find_area(dia)`: pipe cross-sectional area (ft²) from diameter (in):
`(pi * (dia / 2) ** 2) / 144`. -/
noncomputable def find_area (dia : ℝ) : ℝ :=
  (Real.pi * (dia / 2) ^ 2) / 144

/-- `vflow_gpm_to_ft3_per_sec(gpm)`: volume flow conversion `gpm * 0.002228`. -/
noncomputable def vflow_gpm_to_ft3_per_sec (gpm : ℝ) : ℝ :=
  gpm * 0.002228

/-- `find_avg_velocity(vflow, area)`: converts the flow and divides by area. -/
noncomputable def find_avg_velocity (vflow area : ℝ) : ℝ :=
  vflow_gpm_to_ft3_per_sec vflow / area

/-- `friction_factor_commercial_steel_sch40(dia)`:
`0.25 / (log10((EPSILON / (dia / 12)) / 3.7) ** 2)`. -/
noncomputable def friction_factor_commercial_steel_sch40 (dia : ℝ) : ℝ :=
  0.25 / (Real.logb 10 ((EPSILON / (dia / 12)) / 3.7)) ^ 2

/-- `head_loss_straight_pipe(vflow, dia, length)`: area, converted flow,
average velocity, friction factor, then Darcy's formula
`f * (length / (dia / 12)) * (vel ** 2 / (2 * GRAV_CONST))`;
returns `(head_loss, vel)`. -/
noncomputable def head_loss_straight_pipe (vflow dia length : ℝ) : ℝ × ℝ :=
  let area := find_area dia
  let q := vflow_gpm_to_ft3_per_sec vflow
  let vel := q / area
  let f := friction_factor_commercial_steel_sch40 dia
  let head_loss := f * (length / (dia / 12)) * (vel ^ 2 / (2 * GRAV_CONST))
  (head_loss, vel)

/-- The `for key, data in fittings_dict.items()` loop of `head_loss_fittings`:
accumulates the resistance coefficient `K` over the five recognized fitting
names and records a notice (the source `print`s) for each unknown name. -/
noncomputable def head_loss_fittings_loop (dia : ℝ) :
    List (String × ℕ) → ℝ × List String → ℝ × List String
  | [], acc => acc
  | (key, n) :: rest, acc =>
    head_loss_fittings_loop dia rest
      (if key = "Gate Valve" then
        (acc.1 + 8 * friction_factor_commercial_steel_sch40 dia * (n : ℝ), acc.2)
      else if key = "Globe Valve" then
        (acc.1 + 340 * friction_factor_commercial_steel_sch40 dia * (n : ℝ), acc.2)
      else if key = "Swing Check Valve" then
        (acc.1 + 100 * friction_factor_commercial_steel_sch40 dia * (n : ℝ), acc.2)
      else if key = "Ball Valve" then
        (acc.1 + 3 * friction_factor_commercial_steel_sch40 dia * (n : ℝ), acc.2)
      else if key = "90 Deg Elbow LR" then
        (acc.1 + 14 * friction_factor_commercial_steel_sch40 dia * (n : ℝ), acc.2)
      else
        (acc.1, acc.2 ++ [key]))

/-- `head_loss_fittings(fittings_dict, dia, vflow)`: runs the loop from
`K = 0`, then `head_loss = K * (vel ** 2 / (2 * GRAV_CONST))` with
`vel = find_avg_velocity(vflow, find_area(dia))`.  The returned pair is the
head loss together with the unknown-fitting notices the source prints. -/
noncomputable def head_loss_fittings (fittings_dict : List (String × ℕ))
    (dia vflow : ℝ) : ℝ × List String :=
  let Kw := head_loss_fittings_loop dia fittings_dict (0, [])
  let area := find_area dia
  let vel := find_avg_velocity vflow area
  (Kw.1 * (vel ^ 2 / (2 * GRAV_CONST)), Kw.2)

/-! ### The exception-aware layer -/

/-- Python runtime exceptions that the arithmetic in `pumpcalc.py` can raise. -/
inductive PyExc where
  | zeroDivisionError : PyExc
  | mathDomainError : PyExc
deriving DecidableEq

/-- Python float division: raises `ZeroDivisionError` when the denominator is
zero, otherwise returns the quotient. -/
noncomputable def pydiv (a b : ℝ) : Except PyExc ℝ :=
  if b = 0 then .error .zeroDivisionError else .ok (a / b)

/-- Python `math.log10`: raises `ValueError` ("math domain error") on a
non-positive argument, otherwise returns the base-10 logarithm. -/
noncomputable def pylog10 (x : ℝ) : Except PyExc ℝ :=
  if x ≤ 0 then .error .mathDomainError else .ok (Real.logb 10 x)

/-- Sequencing of fallible Python operations: an exception aborts the
computation, a value is passed on. -/
def exceptBind {α β : Type} (x : Except PyExc α) (f : α → Except PyExc β) :
    Except PyExc β :=
  match x with
  | .error e => .error e
  | .ok v => f v

@[simp] lemma exceptBind_ok {α β : Type} (v : α) (f : α → Except PyExc β) :
    exceptBind (.ok v) f = f v := rfl

@[simp] lemma exceptBind_error {α β : Type} (e : PyExc) (f : α → Except PyExc β) :
    exceptBind (.error e) f = .error e := rfl

/-- Runtime behavior of `find_area`: the body divides only by the literals
`2` and `144`, so no exception can be raised for any input. -/
noncomputable def find_areaRun (dia : ℝ) : Except PyExc ℝ :=
  .ok ((Real.pi * (dia / 2) ^ 2) / 144)

/-- Runtime behavior of `friction_factor_commercial_steel_sch40`: the
division `EPSILON / (dia / 12)` and the final `0.25 / log10(...) ** 2` can
raise `ZeroDivisionError`; `math.log10` can raise a math-domain `ValueError`. -/
noncomputable def friction_factor_commercial_steel_sch40Run (dia : ℝ) :
    Except PyExc ℝ :=
  exceptBind (pydiv EPSILON (dia / 12)) fun t =>
  exceptBind (pylog10 (t / 3.7)) fun l =>
  pydiv 0.25 (l ^ 2)

/-- Runtime behavior of `head_loss_straight_pipe`: the fallible operations,
in source order, are the velocity division `q / area`, the friction-factor
call, and the division `length / (dia / 12)` inside Darcy's formula. -/
noncomputable def head_loss_straight_pipeRun (vflow dia length : ℝ) :
    Except PyExc (ℝ × ℝ) :=
  exceptBind (pydiv (vflow_gpm_to_ft3_per_sec vflow) (find_area dia)) fun vel =>
  exceptBind (friction_factor_commercial_steel_sch40Run dia) fun f =>
  exceptBind (pydiv length (dia / 12)) fun t =>
  .ok (f * t * (vel ^ 2 / (2 * GRAV_CONST)), vel)

/-- Runtime behavior of the fittings loop: each recognized fitting name calls
the (fallible) friction-factor function; unknown names only print. -/
noncomputable def head_loss_fittings_loopRun (dia : ℝ) :
    List (String × ℕ) → ℝ × List String → Except PyExc (ℝ × List String)
  | [], acc => .ok acc
  | (key, n) :: rest, acc =>
    if key = "Gate Valve" then
      exceptBind (friction_factor_commercial_steel_sch40Run dia) fun f =>
        head_loss_fittings_loopRun dia rest (acc.1 + 8 * f * (n : ℝ), acc.2)
    else if key = "Globe Valve" then
      exceptBind (friction_factor_commercial_steel_sch40Run dia) fun f =>
        head_loss_fittings_loopRun dia rest (acc.1 + 340 * f * (n : ℝ), acc.2)
    else if key = "Swing Check Valve" then
      exceptBind (friction_factor_commercial_steel_sch40Run dia) fun f =>
        head_loss_fittings_loopRun dia rest (acc.1 + 100 * f * (n : ℝ), acc.2)
    else if key = "Ball Valve" then
      exceptBind (friction_factor_commercial_steel_sch40Run dia) fun f =>
        head_loss_fittings_loopRun dia rest (acc.1 + 3 * f * (n : ℝ), acc.2)
    else if key = "90 Deg Elbow LR" then
      exceptBind (friction_factor_commercial_steel_sch40Run dia) fun f =>
        head_loss_fittings_loopRun dia rest (acc.1 + 14 * f * (n : ℝ), acc.2)
    else
      head_loss_fittings_loopRun dia rest (acc.1, acc.2 ++ [key])

/-- Runtime behavior of `head_loss_fittings`: the loop, then the velocity
division inside `find_avg_velocity`, then the (exception-free) final formula. -/
noncomputable def head_loss_fittingsRun (fittings_dict : List (String × ℕ))
    (dia vflow : ℝ) : Except PyExc (ℝ × List String) :=
  exceptBind (head_loss_fittings_loopRun dia fittings_dict (0, [])) fun Kw =>
  exceptBind (pydiv (vflow_gpm_to_ft3_per_sec vflow) (find_area dia)) fun vel =>
  .ok (Kw.1 * (vel ^ 2 / (2 * GRAV_CONST)), Kw.2)

/-! ### Specification-side definitions

These state, in the specification's words, the K-total of the fittings model
and the list of unsupported-fitting notices; the theorems below compare the
source loop against them. -/

/-- The specification's per-entry K contribution: entries whose type is in
the supported set {Gate Valve: 8, Globe Valve: 340, Swing Check Valve: 100,
Ball Valve: 3, 90° long-radius elbow: 14} contribute
`multiplier * frictionFactor(dia) * count`; any other entry contributes
nothing. -/
noncomputable def specKContribution (dia : ℝ) : String × ℕ → ℝ
  | (key, n) =>
    if key = "Gate Valve" then 8 * friction_factor_commercial_steel_sch40 dia * (n : ℝ)
    else if key = "Globe Valve" then 340 * friction_factor_commercial_steel_sch40 dia * (n : ℝ)
    else if key = "Swing Check Valve" then 100 * friction_factor_commercial_steel_sch40 dia * (n : ℝ)
    else if key = "Ball Valve" then 3 * friction_factor_commercial_steel_sch40 dia * (n : ℝ)
    else if key = "90 Deg Elbow LR" then 14 * friction_factor_commercial_steel_sch40 dia * (n : ℝ)
    else 0

/-- The specification's `K_total`: the sum of the supported entries'
contributions over the whole manifest. -/
noncomputable def specKTotal (manifest : List (String × ℕ)) (dia : ℝ) : ℝ :=
  (manifest.map (specKContribution dia)).sum

/-- The names of the manifest entries that are not in the supported fitting
set, one notice per unknown entry, in manifest order. -/
def unsupportedNames : List (String × ℕ) → List String
  | [] => []
  | (key, _) :: rest =>
    if key = "Gate Valve" ∨ key = "Globe Valve" ∨ key = "Swing Check Valve" ∨
        key = "Ball Valve" ∨ key = "90 Deg Elbow LR" then
      unsupportedNames rest
    else
      key :: unsupportedNames rest

/-! ### Helper lemmas -/

lemma EPSILON_pos : (0 : ℝ) < EPSILON := by norm_num [EPSILON]

lemma find_area_pos {dia : ℝ} (h : dia ≠ 0) : 0 < find_area dia := by
  have h2 : dia / 2 ≠ 0 := div_ne_zero h two_ne_zero
  have hsq : 0 < (dia / 2) ^ 2 := sq_pos_of_ne_zero h2
  exact div_pos (mul_pos Real.pi_pos hsq) (by norm_num)

lemma rr_pos {dia : ℝ} (h : 0 < dia) : 0 < (EPSILON / (dia / 12)) / 3.7 := by
  have h12 : 0 < dia / 12 := by positivity
  exact div_pos (div_pos EPSILON_pos h12) (by norm_num)

lemma friction_factor_pos {dia : ℝ} (h0 : 0 < (EPSILON / (dia / 12)) / 3.7)
    (h1 : (EPSILON / (dia / 12)) / 3.7 < 1) :
    0 < friction_factor_commercial_steel_sch40 dia := by
  have hl : Real.logb 10 ((EPSILON / (dia / 12)) / 3.7) < 0 :=
    Real.logb_neg (by norm_num) h0 h1
  have hsq : 0 < (Real.logb 10 ((EPSILON / (dia / 12)) / 3.7)) ^ 2 :=
    sq_pos_of_ne_zero (ne_of_lt hl)
  exact div_pos (by norm_num) hsq

lemma friction_factorRun_ok {dia : ℝ} (h0 : 0 < dia)
    (h1 : (EPSILON / (dia / 12)) / 3.7 < 1) :
    friction_factor_commercial_steel_sch40Run dia =
      .ok (friction_factor_commercial_steel_sch40 dia) := by
  have h12 : dia / 12 ≠ 0 := div_ne_zero (ne_of_gt h0) (by norm_num)
  have hrr : 0 < (EPSILON / (dia / 12)) / 3.7 := rr_pos h0
  have hl : Real.logb 10 ((EPSILON / (dia / 12)) / 3.7) < 0 :=
    Real.logb_neg (by norm_num) hrr h1
  have hsq : (Real.logb 10 ((EPSILON / (dia / 12)) / 3.7)) ^ 2 ≠ 0 :=
    pow_ne_zero 2 (ne_of_lt hl)
  unfold friction_factor_commercial_steel_sch40Run pydiv pylog10
  rw [if_neg h12]
  simp only [exceptBind_ok]
  rw [if_neg (not_le.mpr hrr)]
  simp only [exceptBind_ok]
  rw [if_neg hsq]
  rfl

lemma head_loss_straight_pipeRun_ok {vflow dia length : ℝ} (h0 : 0 < dia)
    (h1 : (EPSILON / (dia / 12)) / 3.7 < 1) :
    head_loss_straight_pipeRun vflow dia length =
      .ok (head_loss_straight_pipe vflow dia length) := by
  have harea : find_area dia ≠ 0 := ne_of_gt (find_area_pos (ne_of_gt h0))
  have h12 : dia / 12 ≠ 0 := div_ne_zero (ne_of_gt h0) (by norm_num)
  unfold head_loss_straight_pipeRun
  rw [friction_factorRun_ok h0 h1]
  unfold pydiv
  rw [if_neg harea]
  simp only [exceptBind_ok]
  rw [if_neg h12]
  simp only [exceptBind_ok]
  rfl

lemma head_loss_fittings_loop_eq (dia : ℝ) (l : List (String × ℕ)) (k : ℝ)
    (w : List String) :
    head_loss_fittings_loop dia l (k, w) =
      (k + specKTotal l dia, w ++ unsupportedNames l) := by
  induction l generalizing k w with
  | nil => simp [head_loss_fittings_loop, specKTotal, unsupportedNames]
  | cons kv rest ih =>
    obtain ⟨key, n⟩ := kv
    have hsum : specKTotal ((key, n) :: rest) dia
        = specKContribution dia (key, n) + specKTotal rest dia := by
      simp [specKTotal]
    by_cases h1 : key = "Gate Valve"
    · simp only [head_loss_fittings_loop, if_pos h1, ih, hsum, specKContribution,
        unsupportedNames, if_pos (Or.inl h1), Prod.mk.injEq]
      exact ⟨by ring, trivial⟩
    by_cases h2 : key = "Globe Valve"
    · simp only [head_loss_fittings_loop, if_neg h1, if_pos h2, ih, hsum, specKContribution,
        unsupportedNames, if_pos (Or.inr (Or.inl h2)), Prod.mk.injEq]
      exact ⟨by ring, trivial⟩
    by_cases h3 : key = "Swing Check Valve"
    · simp only [head_loss_fittings_loop, if_neg h1, if_neg h2, if_pos h3, ih, hsum,
        specKContribution, unsupportedNames, if_pos (Or.inr (Or.inr (Or.inl h3))),
        Prod.mk.injEq]
      exact ⟨by ring, trivial⟩
    by_cases h4 : key = "Ball Valve"
    · simp only [head_loss_fittings_loop, if_neg h1, if_neg h2, if_neg h3, if_pos h4, ih,
        hsum, specKContribution, unsupportedNames,
        if_pos (Or.inr (Or.inr (Or.inr (Or.inl h4)))), Prod.mk.injEq]
      exact ⟨by ring, trivial⟩
    by_cases h5 : key = "90 Deg Elbow LR"
    · simp only [head_loss_fittings_loop, if_neg h1, if_neg h2, if_neg h3, if_neg h4,
        if_pos h5, ih, hsum, specKContribution, unsupportedNames,
        if_pos (Or.inr (Or.inr (Or.inr (Or.inr h5)))), Prod.mk.injEq]
      exact ⟨by ring, trivial⟩
    · have hnot : ¬ (key = "Gate Valve" ∨ key = "Globe Valve" ∨ key = "Swing Check Valve" ∨
          key = "Ball Valve" ∨ key = "90 Deg Elbow LR") := by
        simp [h1, h2, h3, h4, h5]
      simp only [head_loss_fittings_loop, if_neg h1, if_neg h2, if_neg h3, if_neg h4,
        if_neg h5, ih, hsum, specKContribution, unsupportedNames, if_neg hnot,
        Prod.mk.injEq]
      exact ⟨by ring, by simp⟩

lemma head_loss_fittings_eq (manifest : List (String × ℕ)) (dia vflow : ℝ) :
    head_loss_fittings manifest dia vflow =
      (specKTotal manifest dia *
        ((find_avg_velocity vflow (find_area dia)) ^ 2 / (2 * GRAV_CONST)),
       unsupportedNames manifest) := by
  unfold head_loss_fittings
  rw [head_loss_fittings_loop_eq]
  simp

/-! ### Claim theorems -/

/-- C1: for every `vflow`, `dia > 0` and `length`, `head_loss_straight_pipe`
returns the pair `(headLossFt, avgVelocity)` where
`avgVelocity = (vflow * 0.002228) / (pi * (dia/2)^2 / 144)` and
`headLossFt = f(dia) * (length / (dia/12)) * (avgVelocity^2 / (2 * 32.174))`:
the function is the composition of area, flow conversion, velocity, friction
factor, and the Darcy-Weisbach formula. -/
theorem straight_pipe_head_loss_composition (vflow dia length : ℝ)
    (h : 0 < dia) :
    head_loss_straight_pipe vflow dia length =
      (friction_factor_commercial_steel_sch40 dia * (length / (dia / 12)) *
        (((vflow * 0.002228) / (Real.pi * (dia / 2) ^ 2 / 144)) ^ 2 / (2 * 32.174)),
       (vflow * 0.002228) / (Real.pi * (dia / 2) ^ 2 / 144)) := rfl

/-- Witness for C1 at `vflow = 400`, `dia = 6`, `length = 100`. -/
theorem straight_pipe_head_loss_composition_witness :
    0 < (6 : ℝ) ∧
    head_loss_straight_pipe 400 6 100 =
      (friction_factor_commercial_steel_sch40 6 * (100 / ((6 : ℝ) / 12)) *
        (((400 * 0.002228) / (Real.pi * ((6 : ℝ) / 2) ^ 2 / 144)) ^ 2 / (2 * 32.174)),
       (400 * 0.002228) / (Real.pi * ((6 : ℝ) / 2) ^ 2 / 144)) :=
  ⟨by norm_num, straight_pipe_head_loss_composition 400 6 100 (by norm_num)⟩

/-- C3: for diameters whose relative roughness `(EPSILON / (dia/12)) / 3.7`
lies in `(0, 1)`, the friction factor equals
`0.25 / (log10 of the relative roughness)^2`, this value is positive, and
`EPSILON = 0.00015`. -/
theorem friction_factor_formula (dia : ℝ)
    (h0 : 0 < (EPSILON / (dia / 12)) / 3.7)
    (h1 : (EPSILON / (dia / 12)) / 3.7 < 1) :
    friction_factor_commercial_steel_sch40 dia =
      0.25 / (Real.logb 10 ((EPSILON / (dia / 12)) / 3.7)) ^ 2 ∧
    0 < friction_factor_commercial_steel_sch40 dia ∧
    EPSILON = 0.00015 :=
  ⟨rfl, friction_factor_pos h0 h1, rfl⟩

/-- Witness for C3 at `dia = 6`. -/
theorem friction_factor_formula_witness :
    (0 < (EPSILON / ((6 : ℝ) / 12)) / 3.7 ∧ (EPSILON / ((6 : ℝ) / 12)) / 3.7 < 1) ∧
    (friction_factor_commercial_steel_sch40 6 =
      0.25 / (Real.logb 10 ((EPSILON / ((6 : ℝ) / 12)) / 3.7)) ^ 2 ∧
    0 < friction_factor_commercial_steel_sch40 6 ∧
    EPSILON = 0.00015) :=
  ⟨⟨by norm_num [EPSILON], by norm_num [EPSILON]⟩,
   friction_factor_formula 6 (by norm_num [EPSILON]) (by norm_num [EPSILON])⟩

/-- C7: with `EPSILON` fixed, the friction factor is strictly decreasing in
the diameter on the valid domain (relative roughness in `(0, 1)`). -/
theorem friction_factor_strict_anti (d1 d2 : ℝ) (hd1 : 0 < d1) (hlt : d1 < d2)
    (h1 : (EPSILON / (d1 / 12)) / 3.7 < 1)
    (h2 : (EPSILON / (d2 / 12)) / 3.7 < 1) :
    friction_factor_commercial_steel_sch40 d2 <
      friction_factor_commercial_steel_sch40 d1 := by
  have hd2 : 0 < d2 := hd1.trans hlt
  have hr1 : 0 < (EPSILON / (d1 / 12)) / 3.7 := rr_pos hd1
  have hr2 : 0 < (EPSILON / (d2 / 12)) / 3.7 := rr_pos hd2
  have hrlt : (EPSILON / (d2 / 12)) / 3.7 < (EPSILON / (d1 / 12)) / 3.7 := by
    have h121 : 0 < d1 / 12 := by positivity
    have hdd : d1 / 12 < d2 / 12 := by linarith
    exact div_lt_div_of_pos_right
      (div_lt_div_of_pos_left EPSILON_pos h121 hdd) (by norm_num)
  have hl2lt : Real.logb 10 ((EPSILON / (d2 / 12)) / 3.7) <
      Real.logb 10 ((EPSILON / (d1 / 12)) / 3.7) :=
    Real.logb_lt_logb (by norm_num) hr2 hrlt
  have hl1neg : Real.logb 10 ((EPSILON / (d1 / 12)) / 3.7) < 0 :=
    Real.logb_neg (by norm_num) hr1 h1
  have hl2neg : Real.logb 10 ((EPSILON / (d2 / 12)) / 3.7) < 0 :=
    Real.logb_neg (by norm_num) hr2 h2
  have hsq : (Real.logb 10 ((EPSILON / (d1 / 12)) / 3.7)) ^ 2 <
      (Real.logb 10 ((EPSILON / (d2 / 12)) / 3.7)) ^ 2 := by
    have h' := sq_lt_sq' (a := Real.logb 10 ((EPSILON / (d1 / 12)) / 3.7))
      (b := -Real.logb 10 ((EPSILON / (d2 / 12)) / 3.7))
      (by linarith) (by linarith)
    rwa [neg_sq] at h'
  have hsq1 : 0 < (Real.logb 10 ((EPSILON / (d1 / 12)) / 3.7)) ^ 2 :=
    sq_pos_of_ne_zero (ne_of_lt hl1neg)
  unfold friction_factor_commercial_steel_sch40
  exact div_lt_div_of_pos_left (by norm_num) hsq1 hsq

/-- Witness for C7 at `d1 = 6`, `d2 = 12`. -/
theorem friction_factor_strict_anti_witness :
    (0 < (6 : ℝ) ∧ (6 : ℝ) < 12 ∧ (EPSILON / ((6 : ℝ) / 12)) / 3.7 < 1 ∧
      (EPSILON / ((12 : ℝ) / 12)) / 3.7 < 1) ∧
    friction_factor_commercial_steel_sch40 12 <
      friction_factor_commercial_steel_sch40 6 :=
  ⟨⟨by norm_num, by norm_num, by norm_num [EPSILON], by norm_num [EPSILON]⟩,
   friction_factor_strict_anti 6 12 (by norm_num) (by norm_num)
     (by norm_num [EPSILON]) (by norm_num [EPSILON])⟩

/-- C9: the GPM to ft³/s conversion maps 0 to 0, is linear, and equals
multiplication by the fixed constant 0.002228. -/
theorem vflow_conversion_linear :
    vflow_gpm_to_ft3_per_sec 0 = 0 ∧
    (∀ c gpm : ℝ,
      vflow_gpm_to_ft3_per_sec (c * gpm) = c * vflow_gpm_to_ft3_per_sec gpm) ∧
    (∀ gpm : ℝ, vflow_gpm_to_ft3_per_sec gpm = gpm * 0.002228) :=
  ⟨by norm_num [vflow_gpm_to_ft3_per_sec],
   fun c gpm => by unfold vflow_gpm_to_ft3_per_sec; ring,
   fun gpm => rfl⟩

/-- C10: for the same flow and (positive) diameter, the velocity computed
inline by `head_loss_straight_pipe` equals the one computed by
`find_avg_velocity` applied to `find_area`, as used by `head_loss_fittings`:
the two code paths define the same average velocity. -/
theorem velocity_paths_agree (vflow dia length : ℝ) (h : 0 < dia) :
    (head_loss_straight_pipe vflow dia length).2 =
      find_avg_velocity vflow (find_area dia) := rfl

/-- Witness for C10 at `vflow = 400`, `dia = 6`, `length = 100`. -/
theorem velocity_paths_agree_witness :
    0 < (6 : ℝ) ∧
    (head_loss_straight_pipe 400 6 100).2 = find_avg_velocity 400 (find_area 6) :=
  ⟨by norm_num, velocity_paths_agree 400 6 100 (by norm_num)⟩

/-- C2: for every manifest, `dia > 0` and flow, the fittings head loss equals
`K_total * velocity^2 / (2 * 32.174)` where `K_total` sums
`multiplier * frictionFactor(dia) * count` over the supported entries; the
unknown entries are excluded but each produces a (non-fatal) notice; and the
head-loss value is invariant under permutation of the manifest. -/
theorem fittings_head_loss_spec (manifest : List (String × ℕ)) (dia vflow : ℝ)
    (h : 0 < dia) :
    (head_loss_fittings manifest dia vflow).1 =
      specKTotal manifest dia *
        ((vflow * 0.002228) / (Real.pi * (dia / 2) ^ 2 / 144)) ^ 2 / (2 * 32.174) ∧
    (head_loss_fittings manifest dia vflow).2 = unsupportedNames manifest ∧
    ∀ manifest2 : List (String × ℕ), manifest.Perm manifest2 →
      (head_loss_fittings manifest2 dia vflow).1 =
        (head_loss_fittings manifest dia vflow).1 := by
  refine ⟨?_, ?_, ?_⟩
  · rw [head_loss_fittings_eq]
    simp only [find_avg_velocity, vflow_gpm_to_ft3_per_sec, find_area, GRAV_CONST]
    ring
  · rw [head_loss_fittings_eq]
  · intro manifest2 hperm
    rw [head_loss_fittings_eq, head_loss_fittings_eq]
    have hK : specKTotal manifest2 dia = specKTotal manifest dia := by
      unfold specKTotal
      exact ((hperm.map (specKContribution dia)).sum_eq).symm
    rw [hK]

/-- Witness for C2 at the example manifest of the source (one gate valve, one
globe valve, four ball valves, eight elbows, one unknown "Sprocket"),
`dia = 6`, `vflow = 400`. -/
theorem fittings_head_loss_spec_witness :
    0 < (6 : ℝ) ∧
    ((head_loss_fittings [("Gate Valve", 1), ("Globe Valve", 1), ("Ball Valve", 4),
        ("90 Deg Elbow LR", 8), ("Sprocket", 1)] 6 400).1 =
      specKTotal [("Gate Valve", 1), ("Globe Valve", 1), ("Ball Valve", 4),
        ("90 Deg Elbow LR", 8), ("Sprocket", 1)] 6 *
        ((400 * 0.002228) / (Real.pi * ((6 : ℝ) / 2) ^ 2 / 144)) ^ 2 / (2 * 32.174) ∧
    (head_loss_fittings [("Gate Valve", 1), ("Globe Valve", 1), ("Ball Valve", 4),
        ("90 Deg Elbow LR", 8), ("Sprocket", 1)] 6 400).2 =
      unsupportedNames [("Gate Valve", 1), ("Globe Valve", 1), ("Ball Valve", 4),
        ("90 Deg Elbow LR", 8), ("Sprocket", 1)] ∧
    ∀ manifest2 : List (String × ℕ),
      List.Perm [("Gate Valve", 1), ("Globe Valve", 1), ("Ball Valve", 4),
        ("90 Deg Elbow LR", 8), ("Sprocket", 1)] manifest2 →
      (head_loss_fittings manifest2 6 400).1 =
        (head_loss_fittings [("Gate Valve", 1), ("Globe Valve", 1), ("Ball Valve", 4),
          ("90 Deg Elbow LR", 8), ("Sprocket", 1)] 6 400).1) :=
  ⟨by norm_num,
   fittings_head_loss_spec [("Gate Valve", 1), ("Globe Valve", 1), ("Ball Valve", 4),
     ("90 Deg Elbow LR", 8), ("Sprocket", 1)] 6 400 (by norm_num)⟩

/-- C8: an empty manifest is a valid input: the fittings head loss is 0, both
as a value and at the runtime level (the call succeeds, raising nothing). -/
theorem empty_manifest_head_loss_zero (dia vflow : ℝ) (h : 0 < dia) :
    head_loss_fittings [] dia vflow = (0, []) ∧
    head_loss_fittingsRun [] dia vflow = .ok (0, []) := by
  constructor
  · rw [head_loss_fittings_eq]
    simp [specKTotal, unsupportedNames]
  · have harea : find_area dia ≠ 0 := ne_of_gt (find_area_pos (ne_of_gt h))
    unfold head_loss_fittingsRun head_loss_fittings_loopRun pydiv
    rw [if_neg harea]
    simp

/-- Witness for C8 at `dia = 6`, `vflow = 400`. -/
theorem empty_manifest_head_loss_zero_witness :
    0 < (6 : ℝ) ∧
    (head_loss_fittings [] 6 400 = (0, []) ∧
      head_loss_fittingsRun [] 6 400 = .ok (0, [])) :=
  ⟨by norm_num, empty_manifest_head_loss_zero 6 400 (by norm_num)⟩

/-- C4 counterexample: at non-positive diameters the code raises no
`InvalidDimension` error (no such error exists in the program): `find_area`
silently returns the zero area at `dia = 0`, and `head_loss_fittings` with an
empty manifest silently returns 0 at the negative diameter `-6`. -/
theorem nonpositive_diameter_counterexample :
    find_areaRun 0 = .ok 0 ∧
    head_loss_fittingsRun [] (-6) 400 = .ok (0, []) := by
  constructor
  · unfold find_areaRun
    norm_num
  · have harea : find_area (-6) ≠ 0 := ne_of_gt (find_area_pos (by norm_num))
    unfold head_loss_fittingsRun head_loss_fittings_loopRun pydiv
    rw [if_neg harea]
    simp

/-- C4 (amended): the code performs no diameter validation and has no
`InvalidDimension` error.  What actually happens for `dia ≤ 0`: `find_area`
never raises and returns 0 at `dia = 0`; `head_loss_straight_pipe` raises
`ZeroDivisionError` at `dia = 0` (velocity division by the zero area) and a
math-domain `ValueError` for `dia < 0` (log10 of a negative relative
roughness); `head_loss_fittings` with an empty manifest silently returns 0
for `dia < 0`. -/
theorem nonpositive_diameter_behavior (dia vflow length : ℝ) (hneg : dia < 0) :
    find_areaRun 0 = .ok 0 ∧
    find_area 0 = 0 ∧
    head_loss_straight_pipeRun vflow 0 length = .error .zeroDivisionError ∧
    head_loss_straight_pipeRun vflow dia length = .error .mathDomainError ∧
    head_loss_fittingsRun [] dia vflow = .ok (0, []) := by
  have hdia : dia ≠ 0 := ne_of_lt hneg
  refine ⟨?_, ?_, ?_, ?_, ?_⟩
  · unfold find_areaRun
    norm_num
  · unfold find_area
    norm_num
  · have h0 : find_area 0 = 0 := by unfold find_area; norm_num
    unfold head_loss_straight_pipeRun pydiv
    rw [if_pos h0]
    simp
  · have harea : find_area dia ≠ 0 := ne_of_gt (find_area_pos hdia)
    have h12 : dia / 12 ≠ 0 := div_ne_zero hdia (by norm_num)
    have h12neg : dia / 12 < 0 := div_neg_of_neg_of_pos hneg (by norm_num)
    have ht : EPSILON / (dia / 12) / 3.7 ≤ 0 :=
      le_of_lt (div_neg_of_neg_of_pos
        (div_neg_of_pos_of_neg EPSILON_pos h12neg) (by norm_num))
    unfold head_loss_straight_pipeRun friction_factor_commercial_steel_sch40Run
      pydiv pylog10
    rw [if_neg harea]
    simp only [exceptBind_ok]
    rw [if_neg h12]
    simp only [exceptBind_ok]
    rw [if_pos ht]
    simp
  · have harea : find_area dia ≠ 0 := ne_of_gt (find_area_pos hdia)
    unfold head_loss_fittingsRun head_loss_fittings_loopRun pydiv
    rw [if_neg harea]
    simp

/-- Witness for C4 (amended) at `dia = -6`, `vflow = 400`, `length = 100`. -/
theorem nonpositive_diameter_behavior_witness :
    (-6 : ℝ) < 0 ∧
    (find_areaRun 0 = .ok 0 ∧
    find_area 0 = 0 ∧
    head_loss_straight_pipeRun 400 0 100 = .error .zeroDivisionError ∧
    head_loss_straight_pipeRun 400 (-6) 100 = .error .mathDomainError ∧
    head_loss_fittingsRun [] (-6) 400 = .ok (0, [])) :=
  ⟨by norm_num, nonpositive_diameter_behavior (-6) 400 100 (by norm_num)⟩

/-- C5 counterexample: at `dia = 0.0018 / 37` the relative roughness is 10,
which is `≥ 1`, yet the friction-factor code raises nothing and silently
returns `0.25 / (log10 10)^2 = 0.25`. -/
theorem friction_factor_no_domain_error_counterexample :
    friction_factor_commercial_steel_sch40Run (0.0018 / 37) = .ok 0.25 := by
  have h12 : ((0.0018 / 37 : ℝ)) / 12 ≠ 0 := by norm_num
  have hrr : EPSILON / ((0.0018 / 37 : ℝ) / 12) / 3.7 = 10 := by norm_num [EPSILON]
  unfold friction_factor_commercial_steel_sch40Run pydiv pylog10
  rw [if_neg h12]
  simp only [exceptBind_ok]
  rw [hrr, if_neg (by norm_num : ¬(10 : ℝ) ≤ 0)]
  simp only [exceptBind_ok]
  rw [Real.logb_self_eq_one (by norm_num)]
  rw [if_neg (by norm_num : ((1 : ℝ) ^ 2) ≠ 0)]
  norm_num

/-- C5 (amended): the code has no `DomainError`.  What actually happens: for
a negative relative roughness (`dia < 0`) `math.log10` raises a math-domain
`ValueError`; at `dia = 0` the roughness computation itself raises
`ZeroDivisionError`; at relative roughness exactly 1 (`dia = 0.0018 / 3.7`)
the final `0.25 / log10(1)^2` raises `ZeroDivisionError`; and for relative
roughness `> 1` the function silently returns the positive value
`0.25 / (log10 of the roughness)^2` instead of failing. -/
theorem friction_factor_domain_behavior (dia dia2 : ℝ) (hneg : dia < 0)
    (hpos : 0 < dia2) (hbig : 1 < (EPSILON / (dia2 / 12)) / 3.7) :
    friction_factor_commercial_steel_sch40Run dia = .error .mathDomainError ∧
    friction_factor_commercial_steel_sch40Run 0 = .error .zeroDivisionError ∧
    friction_factor_commercial_steel_sch40Run (0.0018 / 3.7) =
      .error .zeroDivisionError ∧
    friction_factor_commercial_steel_sch40Run dia2 =
      .ok (0.25 / (Real.logb 10 ((EPSILON / (dia2 / 12)) / 3.7)) ^ 2) ∧
    0 < 0.25 / (Real.logb 10 ((EPSILON / (dia2 / 12)) / 3.7)) ^ 2 := by
  refine ⟨?_, ?_, ?_, ?_, ?_⟩
  · have h12 : dia / 12 ≠ 0 := div_ne_zero (ne_of_lt hneg) (by norm_num)
    have h12neg : dia / 12 < 0 := div_neg_of_neg_of_pos hneg (by norm_num)
    have ht : EPSILON / (dia / 12) / 3.7 ≤ 0 :=
      le_of_lt (div_neg_of_neg_of_pos
        (div_neg_of_pos_of_neg EPSILON_pos h12neg) (by norm_num))
    unfold friction_factor_commercial_steel_sch40Run pydiv pylog10
    rw [if_neg h12]
    simp only [exceptBind_ok]
    rw [if_pos ht]
    simp
  · have h0 : (0 : ℝ) / 12 = 0 := by norm_num
    unfold friction_factor_commercial_steel_sch40Run pydiv
    rw [if_pos h0]
    simp
  · have h12 : ((0.0018 / 3.7 : ℝ)) / 12 ≠ 0 := by norm_num
    have hrr : EPSILON / ((0.0018 / 3.7 : ℝ) / 12) / 3.7 = 1 := by norm_num [EPSILON]
    unfold friction_factor_commercial_steel_sch40Run pydiv pylog10
    rw [if_neg h12]
    simp only [exceptBind_ok]
    rw [hrr, if_neg (by norm_num : ¬(1 : ℝ) ≤ 0)]
    simp only [exceptBind_ok, Real.logb_one]
    rw [if_pos (by norm_num : ((0 : ℝ) ^ 2) = 0)]
  · have h12 : dia2 / 12 ≠ 0 := div_ne_zero (ne_of_gt hpos) (by norm_num)
    have hrr : 0 < (EPSILON / (dia2 / 12)) / 3.7 := rr_pos hpos
    have hl : 0 < Real.logb 10 ((EPSILON / (dia2 / 12)) / 3.7) :=
      Real.logb_pos (by norm_num) hbig
    have hsq : (Real.logb 10 ((EPSILON / (dia2 / 12)) / 3.7)) ^ 2 ≠ 0 :=
      pow_ne_zero 2 (ne_of_gt hl)
    unfold friction_factor_commercial_steel_sch40Run pydiv pylog10
    rw [if_neg h12]
    simp only [exceptBind_ok]
    rw [if_neg (not_le.mpr hrr)]
    simp only [exceptBind_ok]
    rw [if_neg hsq]
  · have hl : 0 < Real.logb 10 ((EPSILON / (dia2 / 12)) / 3.7) :=
      Real.logb_pos (by norm_num) hbig
    exact div_pos (by norm_num) (sq_pos_of_ne_zero (ne_of_gt hl))

/-- Witness for C5 (amended) at `dia = -6` and `dia2 = 0.0018 / 37`
(relative roughness 10). -/
theorem friction_factor_domain_behavior_witness :
    ((-6 : ℝ) < 0 ∧ 0 < (0.0018 / 37 : ℝ) ∧
      1 < (EPSILON / ((0.0018 / 37 : ℝ) / 12)) / 3.7) ∧
    (friction_factor_commercial_steel_sch40Run (-6) = .error .mathDomainError ∧
    friction_factor_commercial_steel_sch40Run 0 = .error .zeroDivisionError ∧
    friction_factor_commercial_steel_sch40Run (0.0018 / 3.7) =
      .error .zeroDivisionError ∧
    friction_factor_commercial_steel_sch40Run (0.0018 / 37) =
      .ok (0.25 / (Real.logb 10 ((EPSILON / ((0.0018 / 37 : ℝ) / 12)) / 3.7)) ^ 2) ∧
    0 < 0.25 / (Real.logb 10 ((EPSILON / ((0.0018 / 37 : ℝ) / 12)) / 3.7)) ^ 2) :=
  ⟨⟨by norm_num, by norm_num, by norm_num [EPSILON]⟩,
   friction_factor_domain_behavior (-6) (0.0018 / 37) (by norm_num) (by norm_num)
     (by norm_num [EPSILON])⟩

/-- C6 counterexample: with the valid diameter 6 and the negative length
`-100`, `head_loss_straight_pipe` does not fail: it returns the computed
(head loss, velocity) pair. -/
theorem negative_length_counterexample :
    head_loss_straight_pipeRun 400 6 (-100) =
      .ok (head_loss_straight_pipe 400 6 (-100)) :=
  head_loss_straight_pipeRun_ok (by norm_num) (by norm_num [EPSILON])

/-- C6 (amended): the code performs no length validation and has no
`InvalidDimension` error: for every `length < 0` (with a diameter in the
friction factor's domain) `head_loss_straight_pipe` succeeds and returns the
computed pair. -/
theorem negative_length_returns_result (vflow dia length : ℝ) (h0 : 0 < dia)
    (h1 : (EPSILON / (dia / 12)) / 3.7 < 1) (hlen : length < 0) :
    head_loss_straight_pipeRun vflow dia length =
      .ok (head_loss_straight_pipe vflow dia length) :=
  head_loss_straight_pipeRun_ok h0 h1

/-- Witness for C6 (amended) at `vflow = 400`, `dia = 6`, `length = -100`. -/
theorem negative_length_returns_result_witness :
    (0 < (6 : ℝ) ∧ (EPSILON / ((6 : ℝ) / 12)) / 3.7 < 1 ∧ (-100 : ℝ) < 0) ∧
    head_loss_straight_pipeRun 400 6 (-100) =
      .ok (head_loss_straight_pipe 400 6 (-100)) :=
  ⟨⟨by norm_num, by norm_num [EPSILON], by norm_num⟩,
   negative_length_returns_result 400 6 (-100) (by norm_num)
     (by norm_num [EPSILON]) (by norm_num)⟩

end PumpCalc
